import Mathlib

/-!
Verification of the PerfKitBenchmarker benchmark-lifecycle core: a shallow
embedding of the resource model of perfkitbenchmarker/benchmark_spec.py and
the stage sequencer of perfkitbenchmarker/pkb.py, together with theorems
settling the behavioural claims about construction, Prepare, Delete and the
sequencer.

Modelling conventions:
- Python objects become Lean structures; methods become functions on them.
- Cloud-affecting calls are recorded in an explicit trace list instead of
  performing IO; each handle carries boolean flags saying whether a given
  cloud call would raise, and the embedding of a try/except block consumes
  the flag exactly where the source catches the exception.
- Global FLAGS values consumed by a method are passed as explicit arguments.
-/

namespace Pkb

/-! ## Constants from benchmark_spec.py and pkb.py -/

def GCP : String := "GCP"

def AZURE : String := "Azure"

def AWS : String := "AWS"

def DIGITALOCEAN : String := "DigitalOcean"

def DEBIAN : String := "debian"

def RHEL : String := "rhel"

def WINDOWS : String := "windows"

def STAGE_ALL : String := "all"

def STAGE_PREPARE : String := "prepare"

def STAGE_RUN : String := "run"

def STAGE_CLEANUP : String := "cleanup"

/-- Modelled from the spec: the disk module is not under src/; disk.LOCAL is
the marker value meaning a local scratch disk type. Only equality with this
marker matters to the embedded code. -/
def LOCAL : String := "local"

/-- Modelled from the spec: vm_util.GetTempDir is not under src/; it returns
the per-run temporary directory keyed by run_uri. Modelled as a fixed path
for one process invocation. -/
def GetTempDir : String := "/tmp/perfkitbenchmarker/runs/uri"

/-! ## Data model -/

/-- A scratch disk specification, embedding disk.BaseDiskSpec as it is
constructed in BenchmarkSpec (size, type, mount point, iops, striping). -/
structure BaseDiskSpec where
  disk_size : Nat
  disk_type : String
  mount_point : String
  iops : Nat
  num_striped_disks : Nat
deriving DecidableEq, Repr

/-- A virtual machine handle. Fields mirror the attributes of the VM objects
that benchmark_spec.py reads: zone, max_local_disks, static flags, the
advertised ports and the attached disk specs. The Fails flags say whether the
corresponding cloud call raises when attempted. -/
structure VM where
  zone : String
  max_local_disks : Nat
  is_static : Bool
  install_packages : Bool
  winrm_port : Option Nat
  smb_port : Option Nat
  ssh_port : Option Nat
  disk_specs : List BaseDiskSpec
  packageCleanupFails : Bool
  deleteFails : Bool
  deleteScratchFails : Bool
deriving DecidableEq, Repr

/-- A per-zone network handle (the values of the networks dictionary). -/
structure Network where
  zone : String
  deleteFails : Bool
deriving DecidableEq, Repr

/-- The single firewall handle owned by a spec. -/
structure Firewall where
  disallowFails : Bool
deriving DecidableEq, Repr

/-- The state of a BenchmarkSpec: the fields assigned by
BenchmarkSpec.__init__ on the flag/default-driven path. -/
structure BenchmarkSpec where
  benchmark_name : String
  file_name : String
  cloud : String
  project : String
  zones : List String
  image : Option String
  machine_type : String
  num_vms : Nat
  scratch_disk : Nat
  scratch_disk_size : Nat
  scratch_disk_type : String
  scratch_disk_iops : Nat
  vms : List VM
  networks : List Network
  firewall : Firewall
  deleted : Bool
  always_call_cleanup : Bool
deriving DecidableEq, Repr

/-- One cloud-affecting call made during teardown, identified by the handle
it is made on. -/
inductive CloudCall where
  | vmPackageCleanup (vm : VM)
  | vmDelete (vm : VM)
  | vmDeleteScratchDisks (vm : VM)
  | disallowAllPorts
  | networkDelete (zone : String)
deriving DecidableEq, Repr

/-! ## Teardown (BenchmarkSpec.DeleteVm and BenchmarkSpec.Delete) -/

/-- The tail of DeleteVm after the static package-cleanup step: vm.Delete()
followed, when it does not raise, by vm.DeleteScratchDisks(). Returns the
calls attempted and whether an exception escaped. -/
def deleteVmTail (vm : VM) : List CloudCall × Bool :=
  if vm.deleteFails then ([CloudCall.vmDelete vm], true)
  else ([CloudCall.vmDelete vm, CloudCall.vmDeleteScratchDisks vm],
        vm.deleteScratchFails)

/-- Embeds BenchmarkSpec.DeleteVm: package cleanup for static VMs with
install_packages, then vm.Delete(), then vm.DeleteScratchDisks(). An
exception at any step skips the later steps of this one VM. -/
def DeleteVm (vm : VM) : List CloudCall × Bool :=
  if vm.is_static ∧ vm.install_packages then
    if vm.packageCleanupFails then ([CloudCall.vmPackageCleanup vm], true)
    else
      let r := deleteVmTail vm
      (CloudCall.vmPackageCleanup vm :: r.1, r.2)
  else deleteVmTail vm

/-- Modelled from the spec: vm_util.RunThreaded is not under src/. Per spec
section 4.3, every target is attempted (each runs in its own worker, so one
raising does not stop the others) and an exception, if any occurred, is
surfaced to the caller after all targets were attempted. -/
def RunThreadedDeleteVm (vms : List VM) : List CloudCall × Bool :=
  (vms.map DeleteVm).foldr (fun r acc => (r.1 ++ acc.1, r.2 || acc.2))
    ([], false)

/-- Embeds BenchmarkSpec.Delete. Guard: return immediately unless
run_stage is all or cleanup and the spec is not yet deleted. Body: delete
the VMs (the whole threaded fan-out under one try/except), disallow all
firewall ports (under try/except), delete each network under its own
try/except, then set deleted unconditionally. All exceptions are caught by
the source, so the embedding is a total function returning the new state and
the trace of attempted cloud calls. -/
def BenchmarkSpec.Delete (run_stage : String) (s : BenchmarkSpec) :
    BenchmarkSpec × List CloudCall :=
  if ¬(run_stage = STAGE_ALL ∨ run_stage = STAGE_CLEANUP) ∨ s.deleted then
    (s, [])
  else
    let vmCalls := if s.vms.isEmpty then [] else (RunThreadedDeleteVm s.vms).1
    let netCalls := s.networks.map (fun n => CloudCall.networkDelete n.zone)
    ({ s with deleted := true },
     vmCalls ++ [CloudCall.disallowAllPorts] ++ netCalls)

/-! ## Flag/default-driven construction (BenchmarkSpec.__init__, else branch) -/

/-- The command-line FLAGS values that the flag/default-driven construction
path reads. Option means the flag is unset (None in the source); for the
zones list flag, the empty list is falsy exactly like None. -/
structure Flags where
  cloud : String
  os_type : String
  project : String
  zones : List String
  image : Option String
  machine_type : Option String
  num_vms : Nat
  scratch_disk_size : Nat
  scratch_disk_type : String
  scratch_disk_iops : Nat
  num_striped_disks_present : Bool
  num_striped_disks : Nat
deriving DecidableEq, Repr

/-- The benchmark metadata consumed by construction: GetInfo name,
num_machines (None means use the num_vms flag) and scratch disk count. -/
structure BenchmarkInfo where
  name : String
  num_machines : Option Nat
  scratch_disk : Nat
deriving DecidableEq, Repr

/-- The IMAGE column of the DEFAULTS table (None for AWS). -/
def defaultImage (cloud : String) : Option String :=
  if cloud = GCP then some "ubuntu-14-04"
  else if cloud = AZURE then
    some "b39f27a8b8c64d52b05eac6a62ebad85__Ubuntu-14_04_1-LTS-amd64-server-20150123-en-us-30GB"
  else if cloud = AWS then none
  else if cloud = DIGITALOCEAN then some "ubuntu-14-04-x64"
  else none

/-- The WINDOWS_IMAGE column of the DEFAULTS table (None for AWS; the key is
absent for DigitalOcean, so dict.get returns None). -/
def defaultWindowsImage (cloud : String) : Option String :=
  if cloud = GCP then some "windows-2012-r2"
  else if cloud = AZURE then
    some "a699494373c04fc0bc8f2bb1389d6106__Windows-Server-2012-R2-201505.01-en.us-127GB.vhd"
  else none

/-- The MACHINE_TYPE column of the DEFAULTS table. -/
def defaultMachineType (cloud : String) : Option String :=
  if cloud = GCP then some "n1-standard-1"
  else if cloud = AZURE then some "Small"
  else if cloud = AWS then some "m3.medium"
  else if cloud = DIGITALOCEAN then some "2gb"
  else none

/-- The ZONE column of the DEFAULTS table. -/
def defaultZone (cloud : String) : Option String :=
  if cloud = GCP then some "us-central1-a"
  else if cloud = AZURE then some "East US"
  else if cloud = AWS then some "us-east-1a"
  else if cloud = DIGITALOCEAN then some "sfo1"
  else none

/-- The OS keys of the CLASSES virtual-machine table per cloud: the
DigitalOcean entry has no windows class. -/
def supportedOsTypes (cloud : String) : List String :=
  if cloud = DIGITALOCEAN then [DEBIAN, RHEL] else [DEBIAN, RHEL, WINDOWS]

/-- Embeds the zones assignment: FLAGS.zones or the provider default zone. -/
def effectiveZones (fl : Flags) : List String :=
  if fl.zones.isEmpty then [(defaultZone fl.cloud).getD ""] else fl.zones

/-- Embeds the image assignment: FLAGS.image, falling back to the DEFAULTS
table entry for the OS family (dict.get, so None when the entry is absent). -/
def resolveImage (fl : Flags) : Option String :=
  match fl.image with
  | some img => some img
  | none =>
    if fl.os_type = WINDOWS then defaultWindowsImage fl.cloud
    else defaultImage fl.cloud

/-- Embeds the num_vms assignment: benchmark num_machines unless it is None,
in which case the num_vms flag. -/
def resolveNumVms (fl : Flags) (bi : BenchmarkInfo) : Nat :=
  match bi.num_machines with
  | some n => n
  | none => fl.num_vms

/-- Embeds the per-VM zone choice of the construction loop:
zones[min(index, len(zones) - 1)] for index in range(num_vms). -/
def assignVmZones (zones : List String) (num_vms : Nat) : List String :=
  (List.range num_vms).map (fun index => zones.getD (min index (zones.length - 1)) "")

/-- Embeds the num_striped_disks computation: when the scratch disk type is
local, the benchmark requests at least one scratch disk and the
num_striped_disks flag was not explicitly set, stripe across all local disks
divided by the scratch-disk count (Python 2 integer division); otherwise use
the flag value. -/
def computeNumStripedDisks (fl : Flags) (scratch_disk : Nat)
    (max_local_disks : Nat) : Nat :=
  if fl.scratch_disk_type = LOCAL ∧ scratch_disk ≠ 0 ∧
      fl.num_striped_disks_present = false then
    max_local_disks / scratch_disk
  else fl.num_striped_disks

/-- Embeds the disk-spec loop: one BaseDiskSpec per requested scratch disk,
mounted at /scratch<i>, all sharing the flag-driven size/type/iops and the
computed striping factor. -/
def buildDiskSpecs (fl : Flags) (scratch_disk : Nat) (nsd : Nat) :
    List BaseDiskSpec :=
  (List.range scratch_disk).map (fun i =>
    { disk_size := fl.scratch_disk_size
      disk_type := fl.scratch_disk_type
      mount_point := "/scratch" ++ toString i
      iops := fl.scratch_disk_iops
      num_striped_disks := nsd })

/-- Embeds the lazy per-zone network creation of CreateVirtualMachine: a
network handle is added the first time a VM targets a zone with no handle
yet, preserving first-use order. -/
def buildNetworks (vmZones : List String) : List Network :=
  vmZones.foldl (fun acc z =>
    if acc.any (fun n => n.zone = z) then acc
    else acc ++ [{ zone := z, deleteFails := false }]) []

/-- The fully assembled spec state produced by the flag/default-driven
construction path once the error checks have passed. All constructed VMs are
cloud VMs of the same class (no static VM file), so they share
max_local_disks and the default failure-free handles. -/
def mkSpecFlagDriven (fl : Flags) (bi : BenchmarkInfo) (max_local_disks : Nat) :
    BenchmarkSpec :=
  let zones := effectiveZones fl
  let nvms := resolveNumVms fl bi
  let vmZones := assignVmZones zones nvms
  let nsd := computeNumStripedDisks fl bi.scratch_disk max_local_disks
  let specs := buildDiskSpecs fl bi.scratch_disk nsd
  { benchmark_name := bi.name
    file_name := GetTempDir ++ "/" ++ bi.name
    cloud := fl.cloud
    project := fl.project
    zones := zones
    image := resolveImage fl
    machine_type := (fl.machine_type.getD ((defaultMachineType fl.cloud).getD ""))
    num_vms := nvms
    scratch_disk := bi.scratch_disk
    scratch_disk_size := fl.scratch_disk_size
    scratch_disk_type := fl.scratch_disk_type
    scratch_disk_iops := fl.scratch_disk_iops
    vms := vmZones.map (fun z =>
      { zone := z
        max_local_disks := max_local_disks
        is_static := false
        install_packages := false
        winrm_port := none
        smb_port := none
        ssh_port := some 22
        disk_specs := specs
        packageCleanupFails := false
        deleteFails := false
        deleteScratchFails := false })
    networks := buildNetworks vmZones
    firewall := { disallowFails := false }
    deleted := false
    always_call_cleanup := false }

/-- The errors that can abort flag-driven construction before any cloud
resource is touched: an invalid cloud flag (rejected by the enum flag
definition) or an errors.Error from CreateVirtualMachine when the CLASSES
table has no VM class for the OS type (raised only when at least one VM is
actually created). -/
inductive ConstructError where
  | invalidCloudFlag
  | osTypeNotSupported
deriving DecidableEq, Repr

/-- Embeds the flag/default-driven path of BenchmarkSpec.__init__ as a
fallible constructor. -/
def constructFlagDriven (fl : Flags) (bi : BenchmarkInfo)
    (max_local_disks : Nat) : Except ConstructError BenchmarkSpec :=
  if fl.cloud ∈ [GCP, AZURE, AWS, DIGITALOCEAN] then
    if resolveNumVms fl bi ≠ 0 ∧ fl.os_type ∉ supportedOsTypes fl.cloud then
      Except.error ConstructError.osTypeNotSupported
    else Except.ok (mkSpecFlagDriven fl bi max_local_disks)
  else Except.error ConstructError.invalidCloudFlag

/-! ## Per-VM Prepare pipeline (BenchmarkSpec.PrepareVm) -/

/-- One step of a single VM Prepare pipeline, in trace form. -/
inductive PrepCall where
  | create
  | allowPort (port : Nat)
  | addMetadata
  | waitForBootCompletion
  | startup
  | setupLocalDisks
  | createScratchDisk (mount_point : String)
deriving DecidableEq, Repr

/-- The firewall port-opening calls of PrepareVm, in source order: winrm,
then smb, then ssh, each only when the VM advertises the port. -/
def allowPortCalls (vm : VM) : List PrepCall :=
  (match vm.winrm_port with
   | some p => [PrepCall.allowPort p]
   | none => [])
  ++ (match vm.smb_port with
      | some p => [PrepCall.allowPort p]
      | none => [])
  ++ (match vm.ssh_port with
      | some p => [PrepCall.allowPort p]
      | none => [])

/-- Embeds BenchmarkSpec.PrepareVm in source statement order: vm.Create(),
the firewall AllowPort calls, vm.AddMetadata(...), vm.WaitForBootCompletion(),
vm.Startup(), vm.SetupLocalDisks() when the scratch disk type is local, then
vm.CreateScratchDisk(spec) for each attached disk spec in order. -/
def BenchmarkSpec.PrepareVm (scratch_disk_type : String) (vm : VM) :
    List PrepCall :=
  [PrepCall.create]
  ++ allowPortCalls vm
  ++ [PrepCall.addMetadata, PrepCall.waitForBootCompletion, PrepCall.startup]
  ++ (if scratch_disk_type = LOCAL then [PrepCall.setupLocalDisks] else [])
  ++ vm.disk_specs.map (fun d => PrepCall.createScratchDisk d.mount_point)

/-- The per-VM pipeline in the order the specification text states it:
create, wait for boot completion, open firewall ports, apply metadata tags,
run startup hooks, set up local disks, attach scratch disks. Written from
the words of the specification for comparison with the embedding above. -/
def PrepareVmClaimedOrder (scratch_disk_type : String) (vm : VM) :
    List PrepCall :=
  [PrepCall.create, PrepCall.waitForBootCompletion]
  ++ allowPortCalls vm
  ++ [PrepCall.addMetadata, PrepCall.startup]
  ++ (if scratch_disk_type = LOCAL then [PrepCall.setupLocalDisks] else [])
  ++ vm.disk_specs.map (fun d => PrepCall.createScratchDisk d.mount_point)

/-- The per-VM pipeline in the amended order: create, open firewall ports,
apply metadata tags, wait for boot completion, run startup hooks, set up
local disks, attach scratch disks. Written as an independent statement of
the amended claim for comparison with the embedding of the source. -/
def PrepareVmAmendedOrder (scratch_disk_type : String) (vm : VM) :
    List PrepCall :=
  [PrepCall.create]
  ++ allowPortCalls vm
  ++ [PrepCall.addMetadata]
  ++ [PrepCall.waitForBootCompletion]
  ++ [PrepCall.startup]
  ++ (if scratch_disk_type = LOCAL then [PrepCall.setupLocalDisks] else [])
  ++ vm.disk_specs.map (fun d => PrepCall.createScratchDisk d.mount_point)

/-! ## Persistence (PickleSpec / GetSpecFromFile) -/

/-- The on-disk pickle store: file path to the snapshot of the spec object
graph stored there. Python pickling of the object graph round-trips the
whole spec value, so the snapshot is the spec itself. -/
def PickleStore : Type := List (String × BenchmarkSpec)

/-- Embeds BenchmarkSpec.PickleSpec: dump the whole spec to its file_name. -/
def PickleSpec (store : PickleStore) (s : BenchmarkSpec) : PickleStore :=
  (s.file_name, s) :: store

/-- Embeds BenchmarkSpec.GetSpecFromFile: load the pickle at
GetTempDir/name, re-raising any failure, and clear the deleted flag so that
cleanup is possible even if cleanup already ran. -/
def GetSpecFromFile (store : PickleStore) (name : String) :
    Except String BenchmarkSpec :=
  match List.lookup (GetTempDir ++ "/" ++ name) store with
  | none => Except.error "Unable to unpickle spec file"
  | some sp => Except.ok { sp with deleted := false }

/-! ## Stage sequencer (pkb.RunBenchmark) -/

/-- The observable actions of one RunBenchmark invocation, at the
granularity of the stage functions it calls. -/
inductive SeqEvent where
  | constructSpec
  | pickleSpec
  | prepareHook
  | getSpecFromFile
  | runHook
  | cleanupHook
  | specDelete
  | finalPickleSpec
deriving DecidableEq, Repr

/-- The exceptions that can be in flight inside RunBenchmark. The last one
is the AttributeError raised by evaluating spec.PickleSpec() when spec is
still None in the guaranteed-exit path. -/
inductive PkbError where
  | constructError
  | unpickleError
  | prepareError
  | runError
  | cleanupHookError
  | attributeErrorNoneType
deriving DecidableEq, Repr

/-- The environment of one RunBenchmark invocation: the run_stage flag and
whether each fallible stage body raises when executed. -/
structure SeqEnv where
  run_stage : String
  constructFails : Bool
  getSpecFails : Bool
  prepareFails : Bool
  runFails : Bool
  cleanupHookFails : Bool
deriving DecidableEq, Repr

/-- The DoCleanupPhase leg of the try block: when run_stage includes
cleanup, call the benchmark Cleanup hook (which may raise) and then
spec.Delete(). -/
def cleanupPhase (env : SeqEnv) (acc : List SeqEvent) :
    List SeqEvent × Option PkbError :=
  if env.run_stage = STAGE_ALL ∨ env.run_stage = STAGE_CLEANUP then
    if env.cleanupHookFails then
      (acc ++ [SeqEvent.cleanupHook], some PkbError.cleanupHookError)
    else (acc ++ [SeqEvent.cleanupHook, SeqEvent.specDelete], none)
  else (acc, none)

/-- The DoRunPhase leg of the try block followed by the cleanup leg: when
run_stage includes run, call the Run hook; an exception there skips the
in-try cleanup phase. -/
def runThenCleanupPhases (env : SeqEnv) (acc : List SeqEvent) :
    List SeqEvent × Option PkbError :=
  if env.run_stage = STAGE_ALL ∨ env.run_stage = STAGE_RUN then
    if env.runFails then (acc ++ [SeqEvent.runHook], some PkbError.runError)
    else cleanupPhase env (acc ++ [SeqEvent.runHook])
  else cleanupPhase env acc

/-- The try block of RunBenchmark: construct and pickle a fresh spec then
run DoPreparePhase when run_stage includes prepare, otherwise deserialize
the spec from disk; then the run and cleanup legs. Returns the events, the
in-flight exception if any, and whether the local variable spec was assigned
a spec object (it stays None when construction or deserialization raises). -/
def tryBlock (env : SeqEnv) : List SeqEvent × Option PkbError × Bool :=
  if env.run_stage = STAGE_ALL ∨ env.run_stage = STAGE_PREPARE then
    if env.constructFails then ([], some PkbError.constructError, false)
    else if env.prepareFails then
      ([SeqEvent.constructSpec, SeqEvent.pickleSpec, SeqEvent.prepareHook],
       some PkbError.prepareError, true)
    else
      let r := runThenCleanupPhases env
        [SeqEvent.constructSpec, SeqEvent.pickleSpec, SeqEvent.prepareHook]
      (r.1, r.2, true)
  else
    if env.getSpecFails then
      ([SeqEvent.getSpecFromFile], some PkbError.unpickleError, false)
    else
      let r := runThenCleanupPhases env [SeqEvent.getSpecFromFile]
      (r.1, r.2, true)

/-- Embeds pkb.RunBenchmark around one benchmark: the try block, then the
finally clause. When run_stage includes cleanup the finally clause calls
spec.Delete() only if spec is assigned; otherwise it evaluates
spec.PickleSpec() with no None guard, so an unassigned spec raises an
AttributeError that replaces any in-flight exception. Returns the events in
order and the exception propagated to the caller, if any. -/
def RunBenchmark (env : SeqEnv) : List SeqEvent × Option PkbError :=
  let r := tryBlock env
  if env.run_stage = STAGE_ALL ∨ env.run_stage = STAGE_CLEANUP then
    if r.2.2 then (r.1 ++ [SeqEvent.specDelete], r.2.1)
    else (r.1, r.2.1)
  else
    if r.2.2 then (r.1 ++ [SeqEvent.finalPickleSpec], r.2.1)
    else (r.1, some PkbError.attributeErrorNoneType)

/-! ## Concrete example values used by the witness theorems -/

/-- A sample cloud VM whose Delete call raises, with one local scratch disk
spec attached. -/
def exVM : VM :=
  { zone := "z1"
    max_local_disks := 8
    is_static := false
    install_packages := false
    winrm_port := none
    smb_port := none
    ssh_port := some 22
    disk_specs := [{ disk_size := 500
                     disk_type := "local"
                     mount_point := "/scratch0"
                     iops := 1500
                     num_striped_disks := 4 }]
    packageCleanupFails := false
    deleteFails := true
    deleteScratchFails := false }

/-- A sample spec owning one failing VM, one network whose Delete raises and
a firewall whose DisallowAllPorts raises. -/
def exSpec : BenchmarkSpec :=
  { benchmark_name := "iperf"
    file_name := GetTempDir ++ "/" ++ "iperf"
    cloud := GCP
    project := "proj"
    zones := ["z1"]
    image := some "ubuntu-14-04"
    machine_type := "n1-standard-1"
    num_vms := 1
    scratch_disk := 1
    scratch_disk_size := 500
    scratch_disk_type := "local"
    scratch_disk_iops := 1500
    vms := [exVM]
    networks := [{ zone := "z1", deleteFails := true }]
    firewall := { disallowFails := true }
    deleted := false
    always_call_cleanup := false }

/-- Flags selecting AWS with no explicit image and default zones. -/
def exAwsFlags : Flags :=
  { cloud := AWS
    os_type := DEBIAN
    project := "proj"
    zones := []
    image := none
    machine_type := none
    num_vms := 1
    scratch_disk_size := 500
    scratch_disk_type := "standard"
    scratch_disk_iops := 1500
    num_striped_disks_present := true
    num_striped_disks := 1 }

/-- Benchmark metadata requesting one machine and one scratch disk. -/
def exBI : BenchmarkInfo :=
  { name := "iperf", num_machines := none, scratch_disk := 1 }

/-- Flags with an explicit two-zone list for the zone-assignment witness. -/
def exZoneFlags : Flags :=
  { exAwsFlags with cloud := GCP, zones := ["a", "b"], num_vms := 5 }

/-- Benchmark metadata leaving the machine count to the num_vms flag. -/
def exZoneBI : BenchmarkInfo :=
  { name := "netperf", num_machines := none, scratch_disk := 0 }

/-- Flags selecting a local scratch disk type with the striping flag not
explicitly set, for the striping-default witness. -/
def exLocalFlags : Flags :=
  { exAwsFlags with cloud := GCP
                    scratch_disk_type := LOCAL
                    num_striped_disks_present := false }

/-- Benchmark metadata requesting two scratch disks. -/
def exLocalBI : BenchmarkInfo :=
  { name := "fio", num_machines := none, scratch_disk := 2 }

/-- A sequencer environment running all stages in which the Run hook
raises. -/
def envRunFail : SeqEnv :=
  { run_stage := STAGE_ALL
    constructFails := false
    getSpecFails := false
    prepareFails := false
    runFails := true
    cleanupHookFails := false }

/-- A run-only invocation in which deserializing the spec raises, leaving
the spec variable None. -/
def envGetSpecFail : SeqEnv :=
  { run_stage := STAGE_RUN
    constructFails := false
    getSpecFails := true
    prepareFails := false
    runFails := false
    cleanupHookFails := false }

/-- A prepare-only invocation in which spec construction raises, leaving
the spec variable None. -/
def envConstructFail : SeqEnv :=
  { run_stage := STAGE_PREPARE
    constructFails := true
    getSpecFails := false
    prepareFails := false
    runFails := false
    cleanupHookFails := false }

/-! ## Helper lemmas -/

/-- Inversion of the fallible constructor: a successful construction yields
exactly the assembled spec. -/
theorem constructFlagDriven_ok_eq {fl : Flags} {bi : BenchmarkInfo}
    {mld : Nat} {s : BenchmarkSpec}
    (hok : constructFlagDriven fl bi mld = Except.ok s) :
    s = mkSpecFlagDriven fl bi mld := by
  unfold constructFlagDriven at hok
  split at hok
  · split at hok
    · exact Except.noConfusion hok
    · exact (Except.ok.inj hok).symm
  · exact Except.noConfusion hok

/-! ## Claim theorems -/

/-- C1: for any BenchmarkSpec, when run_stage permits teardown, calling
Delete twice in sequence performs cloud-affecting work only on the first
call: after the first call the deleted flag is true, and the second call is
a guarded no-op that makes no cloud calls on any VM, network or firewall
handle and leaves the state unchanged. -/
theorem delete_idempotent (run_stage : String) (s : BenchmarkSpec)
    (h : run_stage = STAGE_ALL ∨ run_stage = STAGE_CLEANUP) :
    ((BenchmarkSpec.Delete run_stage s).1).deleted = true ∧
      BenchmarkSpec.Delete run_stage ((BenchmarkSpec.Delete run_stage s).1) =
        ((BenchmarkSpec.Delete run_stage s).1, []) := by
  rcases h with h | h <;> subst h <;> by_cases hd : s.deleted <;>
    simp [BenchmarkSpec.Delete, STAGE_ALL, STAGE_CLEANUP, hd]

/-- Witness for C1 at run_stage all on the sample spec. -/
theorem delete_idempotent_witness :
    (STAGE_ALL = STAGE_ALL ∨ STAGE_ALL = STAGE_CLEANUP) ∧
    (((BenchmarkSpec.Delete STAGE_ALL exSpec).1).deleted = true ∧
      BenchmarkSpec.Delete STAGE_ALL ((BenchmarkSpec.Delete STAGE_ALL exSpec).1) =
        ((BenchmarkSpec.Delete STAGE_ALL exSpec).1, [])) :=
  ⟨Or.inl rfl, delete_idempotent STAGE_ALL exSpec (Or.inl rfl)⟩

/-- C9: for every BenchmarkSpec, if run_stage is neither all nor cleanup,
Delete returns immediately: no cloud call is made on any VM, firewall or
network handle and the state is unchanged (in particular the deleted flag
keeps its prior value, so it stays false in prepare- and run-only
invocations). -/
theorem delete_run_stage_guard (run_stage : String) (s : BenchmarkSpec)
    (h : ¬(run_stage = STAGE_ALL ∨ run_stage = STAGE_CLEANUP)) :
    BenchmarkSpec.Delete run_stage s = (s, []) := by
  simp [BenchmarkSpec.Delete, h]

/-- Witness for C9 at run_stage prepare on the sample spec. -/
theorem delete_run_stage_guard_witness :
    (¬(STAGE_PREPARE = STAGE_ALL ∨ STAGE_PREPARE = STAGE_CLEANUP)) ∧
    BenchmarkSpec.Delete STAGE_PREPARE exSpec = (exSpec, []) :=
  ⟨by decide, delete_run_stage_guard STAGE_PREPARE exSpec (by decide)⟩

/-- C2: when the teardown body of Delete runs and deleting the VMs raises,
the firewall DisallowAllPorts step is still attempted and the per-zone
network Delete step is still attempted for every zone (regardless of any
failure flags on the other handles, so one zone failing does not block the
others), and the deleted flag is set to true at the end. The embedding of
Delete is a total function into state and trace because the source catches
every teardown exception, so no failure propagates to the caller. -/
theorem delete_partial_teardown_resilient (run_stage : String)
    (s : BenchmarkSpec)
    (h : run_stage = STAGE_ALL ∨ run_stage = STAGE_CLEANUP)
    (hdel : s.deleted = false)
    (_hfail : ∃ vm ∈ s.vms, vm.deleteFails = true) :
    CloudCall.disallowAllPorts ∈ (BenchmarkSpec.Delete run_stage s).2 ∧
    (∀ n ∈ s.networks,
      CloudCall.networkDelete n.zone ∈ (BenchmarkSpec.Delete run_stage s).2) ∧
    ((BenchmarkSpec.Delete run_stage s).1).deleted = true := by
  rcases h with h | h <;> subst h <;>
    simp [BenchmarkSpec.Delete, STAGE_ALL, STAGE_CLEANUP, hdel,
      List.mem_append, List.mem_map] <;>
    exact fun n hn => Or.inr ⟨n, hn, rfl⟩

/-- Witness for C2 at run_stage cleanup on the sample spec, whose single VM
has a raising Delete and whose firewall and network also raise. -/
theorem delete_partial_teardown_resilient_witness :
    ((STAGE_CLEANUP = STAGE_ALL ∨ STAGE_CLEANUP = STAGE_CLEANUP) ∧
      exSpec.deleted = false ∧ (∃ vm ∈ exSpec.vms, vm.deleteFails = true)) ∧
    (CloudCall.disallowAllPorts ∈ (BenchmarkSpec.Delete STAGE_CLEANUP exSpec).2 ∧
      (∀ n ∈ exSpec.networks,
        CloudCall.networkDelete n.zone ∈
          (BenchmarkSpec.Delete STAGE_CLEANUP exSpec).2) ∧
      ((BenchmarkSpec.Delete STAGE_CLEANUP exSpec).1).deleted = true) :=
  ⟨⟨Or.inr rfl, rfl, by decide⟩,
    delete_partial_teardown_resilient STAGE_CLEANUP exSpec (Or.inr rfl) rfl
      (by decide)⟩

/-- C4: in flag/default-driven construction, VM number i is assigned zone
zones[min(i, Z - 1)], so the last zone is reused once the zones run out; in
particular zones [a, b] with five VMs yield the assignment [a, b, b, b, b]. -/
theorem vm_zone_assignment (fl : Flags) (bi : BenchmarkInfo) (mld : Nat)
    (s : BenchmarkSpec) (hok : constructFlagDriven fl bi mld = Except.ok s)
    (i : Nat) (hi : i < s.num_vms) :
    (s.vms.map VM.zone).getD i "" =
      s.zones.getD (min i (s.zones.length - 1)) "" ∧
    assignVmZones ["a", "b"] 5 = ["a", "b", "b", "b", "b"] := by
  have hs := constructFlagDriven_ok_eq hok
  subst hs
  refine ⟨?_, by decide⟩
  simp only [mkSpecFlagDriven] at hi ⊢
  simp [assignVmZones, List.map_map, Function.comp, List.getD,
    List.getElem?_map, List.getElem?_range hi]

/-- Witness for C4: zones [a, b], five VMs, checked at index 3. -/
theorem vm_zone_assignment_witness :
    (constructFlagDriven exZoneFlags exZoneBI 8 =
        Except.ok (mkSpecFlagDriven exZoneFlags exZoneBI 8) ∧
      3 < (mkSpecFlagDriven exZoneFlags exZoneBI 8).num_vms) ∧
    (((mkSpecFlagDriven exZoneFlags exZoneBI 8).vms.map VM.zone).getD 3 "" =
        (mkSpecFlagDriven exZoneFlags exZoneBI 8).zones.getD
          (min 3 ((mkSpecFlagDriven exZoneFlags exZoneBI 8).zones.length - 1)) "" ∧
      assignVmZones ["a", "b"] 5 = ["a", "b", "b", "b", "b"]) :=
  ⟨⟨rfl, by decide⟩,
    vm_zone_assignment exZoneFlags exZoneBI 8
      (mkSpecFlagDriven exZoneFlags exZoneBI 8) rfl 3 (by decide)⟩

/-- C7: in flag-driven construction with a local scratch disk type, a
nonzero scratch-disk request and the num_striped_disks flag not explicitly
set, every disk spec attached to every constructed VM carries the striping
factor max_local_disks divided evenly by the scratch-disk count. -/
theorem striping_default_all_local_disks (fl : Flags) (bi : BenchmarkInfo)
    (mld : Nat) (s : BenchmarkSpec)
    (hok : constructFlagDriven fl bi mld = Except.ok s)
    (hlocal : fl.scratch_disk_type = LOCAL) (hsd : bi.scratch_disk ≠ 0)
    (hnp : fl.num_striped_disks_present = false) :
    ∀ vm ∈ s.vms, ∀ d ∈ vm.disk_specs,
      d.num_striped_disks = mld / bi.scratch_disk := by
  have hs := constructFlagDriven_ok_eq hok
  subst hs
  intro vm hvm d hd
  simp only [mkSpecFlagDriven, List.mem_map] at hvm
  obtain ⟨z, _, rfl⟩ := hvm
  simp only [buildDiskSpecs, List.mem_map] at hd
  obtain ⟨k, _, rfl⟩ := hd
  simp [computeNumStripedDisks, hlocal, hsd, hnp]

/-- Witness for C7: two scratch disks and eight local disks give a striping
factor of four on every attached disk spec. -/
theorem striping_default_all_local_disks_witness :
    (constructFlagDriven exLocalFlags exLocalBI 8 =
        Except.ok (mkSpecFlagDriven exLocalFlags exLocalBI 8) ∧
      exLocalFlags.scratch_disk_type = LOCAL ∧
      exLocalBI.scratch_disk ≠ 0 ∧
      exLocalFlags.num_striped_disks_present = false ∧
      8 / exLocalBI.scratch_disk = 4) ∧
    (∀ vm ∈ (mkSpecFlagDriven exLocalFlags exLocalBI 8).vms,
      ∀ d ∈ vm.disk_specs,
        d.num_striped_disks = 8 / exLocalBI.scratch_disk) :=
  ⟨⟨rfl, rfl, by decide, rfl, rfl⟩,
    striping_default_all_local_disks exLocalFlags exLocalBI 8
      (mkSpecFlagDriven exLocalFlags exLocalBI 8) rfl rfl (by decide) rfl⟩

/-- C8 counterexample: constructing a spec for AWS with no explicit image
does not raise; construction returns a spec whose image is None rather than
failing, refuting the claim that an error is raised during construction when
neither an explicit image nor a provider default is present. -/
theorem aws_missing_image_constructs_without_error :
    constructFlagDriven exAwsFlags exBI 8 =
      Except.ok (mkSpecFlagDriven exAwsFlags exBI 8) ∧
    (mkSpecFlagDriven exAwsFlags exBI 8).image = none :=
  ⟨rfl, rfl⟩

/-- C8 amended: the image is resolved as explicit per-run override first and
the provider default table second; when neither is present (AWS), the
constructed spec simply carries image None and construction succeeds rather
than raising. -/
theorem image_precedence_no_construction_error (fl : Flags)
    (bi : BenchmarkInfo) (mld : Nat) (s : BenchmarkSpec)
    (hok : constructFlagDriven fl bi mld = Except.ok s) :
    s.image = resolveImage fl ∧
    (∀ img, fl.image = some img → s.image = some img) ∧
    (fl.image = none → fl.os_type ≠ WINDOWS →
      s.image = defaultImage fl.cloud) ∧
    (fl.image = none → fl.os_type = WINDOWS →
      s.image = defaultWindowsImage fl.cloud) ∧
    (fl.cloud = AWS → fl.image = none → fl.os_type ≠ WINDOWS →
      s.image = none) := by
  have hs := constructFlagDriven_ok_eq hok
  subst hs
  refine ⟨rfl, ?_, ?_, ?_, ?_⟩
  · intro img himg
    simp [mkSpecFlagDriven, resolveImage, himg]
  · intro himg hos
    simp [mkSpecFlagDriven, resolveImage, himg, hos]
  · intro himg hos
    simp [mkSpecFlagDriven, resolveImage, himg, hos]
  · intro hcloud himg hos
    simp [mkSpecFlagDriven, resolveImage, himg, hos, hcloud, defaultImage,
      AWS, GCP, AZURE]

/-- Witness for C8 amended at the AWS flags with no explicit image. -/
theorem image_precedence_no_construction_error_witness :
    (constructFlagDriven exAwsFlags exBI 8 =
        Except.ok (mkSpecFlagDriven exAwsFlags exBI 8)) ∧
    ((mkSpecFlagDriven exAwsFlags exBI 8).image = resolveImage exAwsFlags ∧
      (∀ img, exAwsFlags.image = some img →
        (mkSpecFlagDriven exAwsFlags exBI 8).image = some img) ∧
      (exAwsFlags.image = none → exAwsFlags.os_type ≠ WINDOWS →
        (mkSpecFlagDriven exAwsFlags exBI 8).image =
          defaultImage exAwsFlags.cloud) ∧
      (exAwsFlags.image = none → exAwsFlags.os_type = WINDOWS →
        (mkSpecFlagDriven exAwsFlags exBI 8).image =
          defaultWindowsImage exAwsFlags.cloud) ∧
      (exAwsFlags.cloud = AWS → exAwsFlags.image = none →
        exAwsFlags.os_type ≠ WINDOWS →
        (mkSpecFlagDriven exAwsFlags exBI 8).image = none)) :=
  ⟨rfl,
    image_precedence_no_construction_error exAwsFlags exBI 8
      (mkSpecFlagDriven exAwsFlags exBI 8) rfl⟩

/-- C5: pickling a spec and reloading it by benchmark name yields a spec
whose deleted flag is false even if it was true before serialization, whose
owned VMs, networks and firewall are identical to the originals, and which
therefore produces under Delete exactly the deletion calls of the original
spec with its deleted flag cleared; when the original was not yet deleted,
that is exactly the behaviour of Delete on the original. -/
theorem pickle_roundtrip_preserves_teardown (store : PickleStore)
    (s : BenchmarkSpec) (run_stage : String)
    (hf : s.file_name = GetTempDir ++ "/" ++ s.benchmark_name) :
    GetSpecFromFile (PickleSpec store s) s.benchmark_name =
      Except.ok { s with deleted := false } ∧
    ({ s with deleted := false } : BenchmarkSpec).deleted = false ∧
    ({ s with deleted := false } : BenchmarkSpec).vms = s.vms ∧
    ({ s with deleted := false } : BenchmarkSpec).networks = s.networks ∧
    ({ s with deleted := false } : BenchmarkSpec).firewall = s.firewall ∧
    (s.deleted = false →
      BenchmarkSpec.Delete run_stage { s with deleted := false } =
        BenchmarkSpec.Delete run_stage s) := by
  refine ⟨?_, rfl, rfl, rfl, rfl, ?_⟩
  · simp [GetSpecFromFile, PickleSpec, List.lookup, hf]
  · intro hdel
    have hs : ({ s with deleted := false } : BenchmarkSpec) = s := by
      cases s
      simp_all
    rw [hs]

/-- Witness for C5 on the sample spec with its deleted flag set true before
serialization, reloaded at run_stage cleanup. -/
theorem pickle_roundtrip_preserves_teardown_witness :
    (exSpec.file_name = GetTempDir ++ "/" ++ exSpec.benchmark_name) ∧
    (GetSpecFromFile (PickleSpec [] exSpec) exSpec.benchmark_name =
        Except.ok { exSpec with deleted := false } ∧
      ({ exSpec with deleted := false } : BenchmarkSpec).deleted = false ∧
      ({ exSpec with deleted := false } : BenchmarkSpec).vms = exSpec.vms ∧
      ({ exSpec with deleted := false } : BenchmarkSpec).networks =
        exSpec.networks ∧
      ({ exSpec with deleted := false } : BenchmarkSpec).firewall =
        exSpec.firewall ∧
      (exSpec.deleted = false →
        BenchmarkSpec.Delete STAGE_CLEANUP { exSpec with deleted := false } =
          BenchmarkSpec.Delete STAGE_CLEANUP exSpec)) :=
  ⟨rfl, pickle_roundtrip_preserves_teardown [] exSpec STAGE_CLEANUP rfl⟩

/-- C6 counterexample: on a VM advertising an ssh port with a local scratch
disk, the embedded PrepareVm pipeline differs from the order the claim
states, because the source opens firewall ports and applies metadata before
waiting for boot completion. -/
theorem prepareVm_order_differs_from_claim :
    BenchmarkSpec.PrepareVm LOCAL exVM ≠ PrepareVmClaimedOrder LOCAL exVM := by
  decide

/-- C6 amended: within a single VM Prepare pipeline the steps execute
strictly sequentially in the order create, open firewall ports, apply
metadata tags, wait for boot completion, run startup hooks, set up local
disks, then create/attach each declared scratch disk. -/
theorem prepareVm_amended_order_holds (scratch_disk_type : String) (vm : VM) :
    BenchmarkSpec.PrepareVm scratch_disk_type vm =
      PrepareVmAmendedOrder scratch_disk_type vm := by
  simp [BenchmarkSpec.PrepareVm, PrepareVmAmendedOrder]

/-- C3 counterexample: with run_stage all and the Run hook raising while
construction and Prepare succeed, RunBenchmark never invokes the benchmark
Cleanup hook — only spec.Delete() runs on the guaranteed-exit path — so the
Cleanup transition as a whole (Cleanup hook followed by Delete) is not
attempted. -/
theorem runBenchmark_run_failure_skips_cleanup_hook :
    SeqEvent.cleanupHook ∉ (RunBenchmark envRunFail).1 ∧
    SeqEvent.specDelete ∈ (RunBenchmark envRunFail).1 ∧
    (RunBenchmark envRunFail).2 = some PkbError.runError := by
  decide

/-- C3 amended: when run_stage includes cleanup and the Run hook raises
after a successful construction and Prepare, spec.Delete() is still
attempted via the guaranteed-execution finally path and the Run exception is
then propagated to the caller; the benchmark Cleanup hook itself is not
invoked on this path. -/
theorem runBenchmark_run_failure_still_deletes_spec (env : SeqEnv)
    (h1 : env.run_stage = STAGE_ALL) (h2 : env.runFails = true)
    (h3 : env.constructFails = false) (h4 : env.prepareFails = false) :
    SeqEvent.specDelete ∈ (RunBenchmark env).1 ∧
    SeqEvent.cleanupHook ∉ (RunBenchmark env).1 ∧
    (RunBenchmark env).2 = some PkbError.runError := by
  simp [RunBenchmark, tryBlock, runThenCleanupPhases, cleanupPhase,
    h1, h2, h3, h4, STAGE_ALL, STAGE_PREPARE, STAGE_RUN, STAGE_CLEANUP]

/-- Witness for C3 amended at the all-stages environment with a raising Run
hook. -/
theorem runBenchmark_run_failure_still_deletes_spec_witness :
    (envRunFail.run_stage = STAGE_ALL ∧ envRunFail.runFails = true ∧
      envRunFail.constructFails = false ∧ envRunFail.prepareFails = false) ∧
    (SeqEvent.specDelete ∈ (RunBenchmark envRunFail).1 ∧
      SeqEvent.cleanupHook ∉ (RunBenchmark envRunFail).1 ∧
      (RunBenchmark envRunFail).2 = some PkbError.runError) :=
  ⟨⟨rfl, rfl, rfl, rfl⟩,
    runBenchmark_run_failure_still_deletes_spec envRunFail rfl rfl rfl rfl⟩

/-- C10: in a run-only invocation where deserializing the spec raises, and
in a prepare-only invocation where constructing the spec raises, the spec
variable is still None when the finally clause runs; its else branch
evaluates spec.PickleSpec() without the None guard the cleanup branch has,
so the propagated exception is the secondary AttributeError, which replaces
the original stage exception. -/
theorem runBenchmark_finally_none_dereference :
    RunBenchmark envGetSpecFail =
      ([SeqEvent.getSpecFromFile], some PkbError.attributeErrorNoneType) ∧
    RunBenchmark envConstructFail =
      ([], some PkbError.attributeErrorNoneType) ∧
    some PkbError.attributeErrorNoneType ≠ some PkbError.unpickleError ∧
    some PkbError.attributeErrorNoneType ≠ some PkbError.constructError := by
  decide

end Pkb
